import Mathlib

/-!
Verification of the planning-poker session/voting coordinator and backlog store.
The Python sources (`models/app_manager.py`, routes in `app.py`) are shallowly
embedded below: the mutable `state` dictionary becomes an explicit record,
each mutating method becomes a pure function from manager to manager, and a
raised Python exception becomes an `Except` error value.
-/

namespace PlanningPoker

/-- Modelled from the spec: the `Fonctionnalite` record (its defining file
`models/fonctionnalite.py` is not among the sources). Fields follow spec
section 3 and the JSON field list of section 6: id, name, description,
priority (integer, determines backlog order), optional difficulty, status,
voting mode, expected participants. -/
structure Fonctionnalite where
  id : Int
  nom : String
  description : String
  priorite : Int
  difficulte : Option Int := none
  statut : String := "A faire"
  mode_de_vote : String := "unanimite"
  participants : List String := []
deriving DecidableEq, Repr

/-- One entry of `state["participants"]` in `AppManager.__init__` /
`ajouter_participant`. -/
structure Participant where
  pseudo : String
  fonction : String
  avatar : String
  vote : Option String
  session_id : String
deriving DecidableEq, Repr

/-- `state["indicateurs"]` of `AppManager.__init__`. -/
structure Indicateurs where
  reunion_active : Bool := false
  vote_commence : Bool := false
  votes_reveles : Bool := false
  tout_le_monde_a_vote : Bool := false
  fonctionnalite_approuvee : Bool := false
deriving DecidableEq, Repr

/-- The `state` dictionary of `AppManager.__init__`. `mapper_session` is the
pseudo-to-session-id dictionary, kept as an insertion-ordered association
list (Python dict semantics). -/
structure AppState where
  participants : List Participant := []
  mapper_session : List (String × String) := []
  id_fonctionnalite : Option Int := none
  indicateurs : Indicateurs := {}
deriving DecidableEq, Repr

/-- An `AppManager` instance: the loaded backlog plus the global state. -/
structure AppManager where
  backlog : List Fonctionnalite
  state : AppState
deriving DecidableEq, Repr

/-- Modelled from the spec: `constantes.py` is not among the sources; per spec
section 6 it supplies the configured constants only (approval thresholds,
priority and difficulty bounds). In particular the wildcard import of it in
`app_manager.py` binds no name `statistics`. -/
structure Constantes where
  SEUIL_APPROBATION_MOYENNE : ℚ
  SEUIL_APPROBATION_MEDIANE : ℚ
  PRIORITE_MIN : Int
  PRIORITE_MAX : Int
  DIFFICULTE_MIN : Int
  DIFFICULTE_MAX : Int
deriving DecidableEq, Repr

/-- A fresh manager: backlog as loaded, all state fields at their initial
values (`AppManager.__init__`). -/
def init (backlog : List Fonctionnalite) : AppManager :=
  { backlog := backlog, state := {} }

/-- Python dict assignment `d[k] = v`: replace the value in place if the key
is present, otherwise append the binding (insertion order preserved). -/
def dictInsert (d : List (String × String)) (k v : String) :
    List (String × String) :=
  if d.any (fun kv => kv.1 == k) then
    d.map (fun kv => if kv.1 == k then (k, v) else kv)
  else d ++ [(k, v)]

/-- The static allow-list hardcoded in `ajouter_participant`. -/
def PARTICIPANTS_AUTORISES : List String := ["po", "sm", "lina", "hugo"]

/-- Python `str.lower` (ASCII, which covers every pseudo compared in the
source), written by structural recursion on the character list so that it
evaluates inside the kernel. -/
def pyLower (s : String) : String := ⟨s.data.map Char.toLower⟩

/-- Python `str.upper` (ASCII), as above. -/
def pyUpper (s : String) : String := ⟨s.data.map Char.toUpper⟩

/-- Decimal value of a digit-character list. -/
def digitsToNat (l : List Char) : Nat :=
  l.foldl (fun acc c => acc * 10 + (c.toNat - 48)) 0

/-- Python `int(str)` restricted to the forms the application produces
(an optional minus sign and decimal digits); anything else raises
`ValueError`, here `none`. -/
def pyInt? (s : String) : Option Int :=
  match s.data with
  | [] => none
  | '-' :: rest =>
    if !rest.isEmpty && rest.all Char.isDigit then
      some (-(digitsToNat rest : Int))
    else none
  | l =>
    if l.all Char.isDigit then some (digitsToNat l) else none

/-- The avatar URL built in `ajouter_participant`:
`f"https://placehold.co/60x60/{pseudo[:2].upper()}"`. -/
def avatarOf (pseudo : String) : String :=
  "https://placehold.co/60x60/" ++ pyUpper ⟨pseudo.data.take 2⟩

/-- The distinct `ValueError` messages `ajouter_participant` can raise. -/
inductive JoinError where
  | pseudoVide
  | nonAutorise (pseudo : String)
  | doublonPseudo (pseudo : String)
  | poDejaPresent
  | smDejaPresent
deriving DecidableEq, Repr

/-- The append to `state["participants"]` plus the `mapper_session` update at
the end of `ajouter_participant`. -/
def ajouterDansState (m : AppManager) (pseudo fonction session_id : String) :
    AppManager :=
  { m with state := { m.state with
      participants := m.state.participants ++
        [{ pseudo := pseudo, fonction := fonction, avatar := avatarOf pseudo,
           vote := none, session_id := session_id }],
      mapper_session := dictInsert m.state.mapper_session pseudo session_id } }

/-- `AppManager.ajouter_participant`: empty-pseudo check, static allow-list
check on the lowercased pseudo, exact-string duplicate check, then role
assignment (lowercased pseudo "po" and "sm" are the unique privileged roles,
anything else is a Votant), then the append. -/
def ajouter_participant (m : AppManager) (pseudo session_id : String) :
    Except JoinError AppManager :=
  if pseudo = "" then .error .pseudoVide
  else if pyLower pseudo ∉ PARTICIPANTS_AUTORISES then
    .error (.nonAutorise pseudo)
  else if pseudo ∈ m.state.participants.map Participant.pseudo then
    .error (.doublonPseudo pseudo)
  else if pyLower pseudo = "po" then
    if m.state.participants.any (fun p => p.fonction == "Product Owner") then
      .error .poDejaPresent
    else .ok (ajouterDansState m pseudo "Product Owner" session_id)
  else if pyLower pseudo = "sm" then
    if m.state.participants.any (fun p => p.fonction == "Scrum Master") then
      .error .smDejaPresent
    else .ok (ajouterDansState m pseudo "Scrum Master" session_id)
  else .ok (ajouterDansState m pseudo "Votant" session_id)

/-- `AppManager.logout_participant`: drop the participants bound to the
session id. -/
def logout_participant (m : AppManager) (session_id : String) : AppManager :=
  { m with state := { m.state with
      participants :=
        m.state.participants.filter (fun p => p.session_id != session_id) } }

/-- `AppManager.get_fonctionnalite` / the `next(...)` lookups by id. -/
def get_fonctionnalite (m : AppManager) (fonctionnalite_id : Int) :
    Option Fonctionnalite :=
  m.backlog.find? (fun f => f.id == fonctionnalite_id)

/-- `AppManager.afficher_fonctionnalite_prioritaire`: head of the backlog. -/
def afficher_fonctionnalite_prioritaire (m : AppManager) :
    Option Fonctionnalite :=
  m.backlog.head?

/-- The comparison underlying `backlog.sort(key=lambda f: int(f.priorite))`. -/
def prioriteLe (a b : Fonctionnalite) : Prop := a.priorite ≤ b.priorite

instance : DecidableRel prioriteLe := fun a b =>
  inferInstanceAs (Decidable (a.priorite ≤ b.priorite))

instance : IsTotal Fonctionnalite prioriteLe :=
  ⟨fun a b => le_total a.priorite b.priorite⟩

instance : IsTrans Fonctionnalite prioriteLe :=
  ⟨fun _ _ _ hab hbc => le_trans hab hbc⟩

/-- `AppManager.trier_backlog`: Python `list.sort` is stable; a stable sort by
a total preorder is unique, so insertion sort embeds it faithfully. -/
def trier_backlog (l : List Fonctionnalite) : List Fonctionnalite :=
  List.insertionSort prioriteLe l

/-- The fresh id computed in `ajout_fonctionnalite`:
`max((f.id for f in backlog), default=0) + 1`. -/
def newId (backlog : List Fonctionnalite) : Int :=
  (match backlog.map Fonctionnalite.id with
   | [] => 0
   | x :: xs => xs.foldl max x) + 1

/-- The record built in `ajout_fonctionnalite`. -/
def nouvelleFonctionnalite (m : AppManager) (nom description : String)
    (priorite : Int) (difficulte : Option Int) (statut mode_de_vote : String)
    (participants : List String) : Fonctionnalite :=
  { id := newId m.backlog, nom := nom, description := description,
    priorite := priorite, difficulte := difficulte, statut := statut,
    mode_de_vote := mode_de_vote, participants := participants }

/-- `AppManager.ajout_fonctionnalite`: build the record, append, re-sort.
No bounds validation happens here; the function is total. -/
def ajout_fonctionnalite (m : AppManager) (nom description : String)
    (priorite : Int) (difficulte : Option Int) (statut mode_de_vote : String)
    (participants : List String) : AppManager :=
  { m with backlog := trier_backlog (m.backlog ++
      [nouvelleFonctionnalite m nom description priorite difficulte statut
        mode_de_vote participants]) }

/-- The keyword arguments of `modifier_fonctionnalite`: every settable field
optional, only present fields overwrite (`hasattr`/`setattr` loop). -/
structure MiseAJour where
  id : Option Int := none
  nom : Option String := none
  description : Option String := none
  priorite : Option Int := none
  difficulte : Option (Option Int) := none
  statut : Option String := none
  mode_de_vote : Option String := none
  participants : Option (List String) := none
deriving DecidableEq, Repr

/-- Apply a partial update to one record. -/
def appliquerMiseAJour (u : MiseAJour) (f : Fonctionnalite) : Fonctionnalite :=
  { id := u.id.getD f.id, nom := u.nom.getD f.nom,
    description := u.description.getD f.description,
    priorite := u.priorite.getD f.priorite,
    difficulte := u.difficulte.getD f.difficulte,
    statut := u.statut.getD f.statut,
    mode_de_vote := u.mode_de_vote.getD f.mode_de_vote,
    participants := u.participants.getD f.participants }

/-- `next(...)` finds the first record with the given id and that one object
is mutated in place; later records are untouched. -/
def appliquerPremiere (u : MiseAJour) (fid : Int) :
    List Fonctionnalite → List Fonctionnalite
  | [] => []
  | f :: rest =>
    if f.id = fid then appliquerMiseAJour u f :: rest
    else f :: appliquerPremiere u fid rest

/-- The `ValueError("Fonctionnalite non trouvee.")` raised by
`modifier_fonctionnalite` and `initier_vote`. -/
inductive BacklogError where
  | nonTrouvee
deriving DecidableEq, Repr

/-- `AppManager.modifier_fonctionnalite`: not-found check, in-place partial
update of the first matching record, re-sort. -/
def modifier_fonctionnalite (m : AppManager) (fid : Int) (u : MiseAJour) :
    Except BacklogError AppManager :=
  if (m.backlog.find? (fun f => f.id == fid)).isSome then
    .ok { m with backlog := trier_backlog (appliquerPremiere u fid m.backlog) }
  else .error .nonTrouvee

/-- `AppManager.supprimer_fonctionnalite`: filter out the id (a no-op when the
id is absent); no re-sort. -/
def supprimer_fonctionnalite (m : AppManager) (fid : Int) : AppManager :=
  { m with backlog := m.backlog.filter (fun f => f.id != fid) }

/-- `AppManager.initier_vote`: not-found check, then set `vote_commence`,
the active feature id and `tout_le_monde_a_vote := false`, and clear every
vote. Note that `votes_reveles` is not touched. -/
def initier_vote (m : AppManager) (fid : Int) :
    Except BacklogError AppManager :=
  if (m.backlog.find? (fun f => f.id == fid)).isSome then
    .ok { m with state := { m.state with
      indicateurs := { m.state.indicateurs with
        vote_commence := true, tout_le_monde_a_vote := false },
      id_fonctionnalite := some fid,
      participants := m.state.participants.map (fun p => { p with vote := none }) } }
  else .error .nonTrouvee

/-- How `ajouter_vote` can fail: subscripting the `None` returned by
`get_data_par_pseudo` for an unknown pseudo raises a Python `TypeError`
(the explicit not-found check is commented out in the source), and a second
vote raises the `ValueError("... a deja vote.")`. -/
inductive VoteError where
  | typeErrorNone
  | dejaVote (pseudo : String)
deriving DecidableEq, Repr

/-- `AppManager.get_data_par_pseudo`: first participant with the pseudo. -/
def get_data_par_pseudo (m : AppManager) (pseudo : String) :
    Option Participant :=
  m.state.participants.find? (fun p => p.pseudo == pseudo)

/-- The in-place `participant["vote"] = vote`: only the first participant
with the pseudo (the object `next(...)` aliased) is updated. -/
def setVotePremier (pseudo vote : String) :
    List Participant → List Participant
  | [] => []
  | p :: rest =>
    if p.pseudo = pseudo then { p with vote := some vote } :: rest
    else p :: setVotePremier pseudo vote rest

/-- `AppManager.ajouter_vote`: lookup by pseudo (a `None` result is then
subscripted, raising `TypeError`), already-voted check, then set the vote. -/
def ajouter_vote (m : AppManager) (pseudo vote : String) :
    Except VoteError AppManager :=
  match get_data_par_pseudo m pseudo with
  | none => .error .typeErrorNone
  | some participant =>
    if participant.vote.isSome then .error (.dejaVote participant.pseudo)
    else .ok { m with state := { m.state with
        participants := setVotePremier pseudo vote m.state.participants } }

/-- `AppManager.tout_le_monde_a_vote`: every connected Votant has a vote. -/
def tout_le_monde_a_vote (m : AppManager) : Bool :=
  (m.state.participants.filter (fun p => p.fonction == "Votant")).all
    (fun p => p.vote.isSome)

/-- `AppManager.reveler_votes`: the pseudo-to-vote dictionary of every
participant with a vote; sets `votes_reveles`. -/
def reveler_votes (m : AppManager) : AppManager × List (String × String) :=
  ({ m with state := { m.state with
      indicateurs := { m.state.indicateurs with votes_reveles := true } } },
   m.state.participants.foldl (fun d p =>
     match p.vote with
     | some v => dictInsert d p.pseudo v
     | none => d) [])

/-- `AppManager.reinitialiser_votes`: clear every vote and the
`vote_commence` / `votes_reveles` indicators. -/
def reinitialiser_votes (m : AppManager) : AppManager :=
  { m with state := { m.state with
      indicateurs := { m.state.indicateurs with
        vote_commence := false, votes_reveles := false },
      participants := m.state.participants.map (fun p => { p with vote := none }) } }

/-- One step of the `votes` dictionary comprehension of `valider_vote`:
record the vote of a Votant who has one. -/
def votesStep (d : List (String × String)) (p : Participant) :
    List (String × String) :=
  if p.fonction == "Votant" then
    match p.vote with
    | some v => dictInsert d p.pseudo v
    | none => d
  else d

/-- The `votes` dictionary comprehension of `valider_vote`: pseudo-to-vote
for connected Votants with a non-null vote (Python dict semantics). -/
def votesVotants (ps : List Participant) : List (String × String) :=
  ps.foldl votesStep []

/-- How `valider_vote` can terminate abnormally: the `mediane` branch looks
up the unbound name `statistics` (never imported in `app_manager.py`),
raising `NameError`; the `moyenne` branch applies `int` to every vote,
raising `ValueError` on an unparseable one. -/
inductive ValidationError where
  | nameErrorStatistics
  | valueErrorInt
deriving DecidableEq, Repr

/-- Set `state["indicateurs"]["fonctionnalite_approuvee"]`. -/
def setApprouvee (m : AppManager) (b : Bool) : AppManager :=
  { m with state := { m.state with
      indicateurs := { m.state.indicateurs with
        fonctionnalite_approuvee := b } } }

/-- `AppManager.valider_vote`. Early returns (falsy feature id, zero votes,
feature not in the backlog) yield `false` without touching the state. In
`unanimite` mode approval is the one-distinct-value test; in `moyenne` mode
the integer votes are averaged against the configured threshold; the
`mediane` branch raises `NameError` because `statistics` is unbound. A Python
`if not fonctionnalite_id` is falsy both for `None` and for the id `0`. -/
def valider_vote (c : Constantes) (m : AppManager) :
    Except ValidationError (AppManager × Bool) :=
  match m.state.id_fonctionnalite with
  | none => .ok (m, false)
  | some fid =>
    if fid = 0 then .ok (m, false)
    else
      let votes := votesVotants m.state.participants
      if votes.isEmpty then .ok (m, false)
      else
        match m.backlog.find? (fun f => f.id == fid) with
        | none => .ok (m, false)
        | some f =>
          if f.mode_de_vote = "unanimite" then
            if (votes.map Prod.snd).dedup.length = 1 then
              .ok (setApprouvee m true, true)
            else .ok (setApprouvee m false, false)
          else if f.mode_de_vote = "moyenne" then
            match (votes.map Prod.snd).mapM pyInt? with
            | none => .error .valueErrorInt
            | some ns =>
              if c.SEUIL_APPROBATION_MOYENNE ≤ (ns.sum : ℚ) / (votes.length : ℚ) then
                .ok (setApprouvee m true, true)
              else .ok (setApprouvee m false, false)
          else if f.mode_de_vote = "mediane" then
            .error .nameErrorStatistics
          else .ok (setApprouvee m false, false)

/-- `AppManager.is_team_complete`: every expected participant of the feature
is connected, by pseudo, regardless of role. -/
def is_team_complete (m : AppManager) (f : Fonctionnalite) : Bool :=
  f.participants.all
    (fun p => (m.state.participants.map Participant.pseudo).contains p)

/-- Python `str.isdigit` on the route input (empty strings are not digits). -/
def pyIsdigit (s : String) : Bool := !s.data.isEmpty && s.data.all Char.isDigit

/-- Python `int` on a digit string (only ever applied under `pyIsdigit`). -/
def pyIntOfDigits (s : String) : Int := Int.ofNat (digitsToNat s.data)

/-- The route-level priority check of `app.py ajouter_fonctionnalite`:
`priorite.isdigit() and PRIORITE_MIN <= int(priorite) <= PRIORITE_MAX`. -/
def prioriteValide (c : Constantes) (s : String) : Bool :=
  pyIsdigit s && decide (c.PRIORITE_MIN ≤ pyIntOfDigits s)
    && decide (pyIntOfDigits s ≤ c.PRIORITE_MAX)

/-- The route-level difficulty check of `app.py ajouter_fonctionnalite`. -/
def difficulteValide (c : Constantes) (s : String) : Bool :=
  pyIsdigit s && decide (c.DIFFICULTE_MIN ≤ pyIntOfDigits s)
    && decide (pyIntOfDigits s ≤ c.DIFFICULTE_MAX)

/-- The `app.py /ajouter_fonctionnalite` route body after the form fields are
read: collect field-level errors; when any exist, re-render without calling
the store; otherwise call `AppManager.ajout_fonctionnalite` with the parsed
integers. Returns the resulting manager and the error-field list. -/
def route_ajouter_fonctionnalite (c : Constantes) (m : AppManager)
    (nom description priorite difficulte mode_de_vote statut : String)
    (participants : List String) : AppManager × List String :=
  let erreurs :=
    (if prioriteValide c priorite then [] else ["priorite"]) ++
    (if difficulteValide c difficulte then [] else ["difficulte"])
  if erreurs.isEmpty then
    (ajout_fonctionnalite m nom description (pyIntOfDigits priorite)
      (some (pyIntOfDigits difficulte)) statut mode_de_vote participants, [])
  else (m, erreurs)

/-- A roster event: a login attempt (a raised `ValueError` leaves the state
unchanged; the `login` route catches it) or a logout. -/
inductive Op where
  | join (pseudo session_id : String)
  | logout (session_id : String)
deriving DecidableEq, Repr

/-- Apply one roster event. -/
def appliquerOp (m : AppManager) : Op → AppManager
  | .join pseudo sid =>
    match ajouter_participant m pseudo sid with
    | .ok m2 => m2
    | .error _ => m
  | .logout sid => logout_participant m sid

/-- Run a sequence of roster events. -/
def executer (m : AppManager) (ops : List Op) : AppManager :=
  ops.foldl appliquerOp m

/-- Number of connected participants holding a given role. -/
def compteRole (m : AppManager) (role : String) : Nat :=
  m.state.participants.countP (fun p => p.fonction == role)

/-! ### Concrete states used to instantiate and to refute claims -/

/-- A sample configuration: both approval thresholds 4, priority and
difficulty bounds 1..10. -/
def cDemo : Constantes :=
  { SEUIL_APPROBATION_MOYENNE := 4, SEUIL_APPROBATION_MEDIANE := 4,
    PRIORITE_MIN := 1, PRIORITE_MAX := 10,
    DIFFICULTE_MIN := 1, DIFFICULTE_MAX := 10 }

/-- A connected Votant, as `ajouter_participant` would store one. -/
def votant (pseudo : String) (vote : Option String) (sid : String) :
    Participant :=
  { pseudo := pseudo, fonction := "Votant", avatar := avatarOf pseudo,
    vote := vote, session_id := sid }

/-- A round in `mediane` mode with two integer-parseable Votant votes. -/
def mMediane : AppManager :=
  { backlog := [{ id := 1, nom := "f", description := "d", priorite := 1,
                  mode_de_vote := "mediane", participants := ["a", "b"] }],
    state := { participants := [votant "a" (some "3") "s1",
                                votant "b" (some "5") "s2"],
               mapper_session := [("a", "s1"), ("b", "s2")],
               id_fonctionnalite := some 1 } }

/-! ### Claim C1: what `initier_vote` resets -/

/-- State for C1: a round whose votes were already revealed. -/
def mC1 : AppManager :=
  { backlog := [{ id := 1, nom := "f", description := "d", priorite := 1,
                  participants := ["hugo"] }],
    state := { participants := [votant "hugo" (some "5") "s1"],
               mapper_session := [("hugo", "s1")],
               id_fonctionnalite := some 1,
               indicateurs := { vote_commence := true, votes_reveles := true,
                                tout_le_monde_a_vote := true } } }

/-- C1, counterexample: starting a round from a state with
`votes_reveles = true` leaves `votes_reveles` equal to `true` — `initier_vote`
never writes that indicator, contradicting the claim that `start_round` sets
`votes_revealed` to false. -/
theorem initier_vote_keeps_votes_reveles_cex :
    (initier_vote mC1 1).map (fun m => m.state.indicateurs.votes_reveles) =
      .ok true := rfl

/-- C1 (amended): for an existing feature id, `initier_vote` sets the active
feature id, sets `vote_commence := true` and `tout_le_monde_a_vote := false`,
resets every connected participant's vote to null — and leaves
`votes_reveles` unchanged. -/
theorem initier_vote_spec (m : AppManager) (fid : Int)
    (h : (m.backlog.find? (fun f => f.id == fid)).isSome) :
    ∃ m2, initier_vote m fid = .ok m2 ∧
      m2.state.id_fonctionnalite = some fid ∧
      m2.state.indicateurs.vote_commence = true ∧
      m2.state.indicateurs.tout_le_monde_a_vote = false ∧
      m2.state.indicateurs.votes_reveles = m.state.indicateurs.votes_reveles ∧
      ∀ p ∈ m2.state.participants, p.vote = none := by
  unfold initier_vote
  rw [if_pos h]
  refine ⟨_, rfl, rfl, rfl, rfl, rfl, ?_⟩
  intro p hp
  simp only [List.mem_map] at hp
  obtain ⟨q, -, rfl⟩ := hp
  rfl

/-- C1 witness: the amended theorem applied to the concrete revealed round. -/
theorem initier_vote_spec_witness :
    ((mC1.backlog.find? (fun f => f.id == 1)).isSome) ∧
      ∃ m2, initier_vote mC1 1 = .ok m2 ∧
        m2.state.id_fonctionnalite = some 1 ∧
        m2.state.indicateurs.vote_commence = true ∧
        m2.state.indicateurs.tout_le_monde_a_vote = false ∧
        m2.state.indicateurs.votes_reveles = mC1.state.indicateurs.votes_reveles ∧
        ∀ p ∈ m2.state.participants, p.vote = none :=
  ⟨by decide, initier_vote_spec mC1 1 (by decide)⟩

/-! ### Claim C2: `valider_vote` in `mediane` mode -/

/-- C2 (code bug): on a round in `mediane` mode with integer-parseable Votant
votes ("3" and "5"), `valider_vote` does not return the
median-against-threshold boolean: it raises `NameError`, because
`app_manager.py` evaluates `statistics.median` without ever importing
`statistics` (its imports are `json`, `constantes`, `models.fonctionnalite`).
The claim — and spec sections 4.2 and 7 — say the call returns the comparison
result without raising. -/
theorem valider_vote_mediane_raises_name_error :
    valider_vote cDemo mMediane = .error .nameErrorStatistics := rfl

/-! ### Claim C5: `ajouter_vote` on an unknown pseudo -/

/-- C5 (code bug): for a pseudo absent from the roster,
`get_data_par_pseudo` returns `None` and `ajouter_vote` immediately
subscripts it (`participant["vote"]`), raising `TypeError` — the explicit
not-found check is commented out in the source — instead of the recoverable
`NoSuchParticipant` error the claim describes. -/
theorem ajouter_vote_unknown_pseudo_type_error :
    ajouter_vote mMediane "ghost" "5" = .error .typeErrorNone := rfl

/-! ### Claim C3: who is authorized to join -/

/-- State for C3: the highest-priority feature expects participant "alice",
who is not on the static allow-list. -/
def mC3 : AppManager :=
  init [{ id := 1, nom := "f", description := "d", priorite := 1,
          participants := ["alice"] }]

/-- C3, counterexample: "alice" is listed on the currently highest-priority
feature, yet `ajouter_participant` rejects her as unauthorized — only the
hardcoded static allow-list is consulted, contradicting the claim that such
a pseudo is accepted by join. -/
theorem ajouter_participant_backlog_participant_rejected_cex :
    (afficher_fonctionnalite_prioritaire mC3).map Fonctionnalite.participants =
        some ["alice"] ∧
      ajouter_participant mC3 "alice" "s1" = .error (.nonAutorise "alice") :=
  ⟨rfl, rfl⟩

/-- C3 (amended): for a non-empty pseudo, `ajouter_participant` fails as
unauthorized exactly when the lowercased pseudo is not on the static
allow-list `["po", "sm", "lina", "hugo"]`; the backlog participants play no
part (the route-level pre-check in `app.py login` consults them, but a pseudo
passing that pre-check without being on the static list is still rejected
here). -/
theorem ajouter_participant_unauthorized_iff (m : AppManager)
    (pseudo session_id : String) (h : pseudo ≠ "") :
    ajouter_participant m pseudo session_id = .error (.nonAutorise pseudo) ↔
      pyLower pseudo ∉ PARTICIPANTS_AUTORISES := by
  unfold ajouter_participant
  rw [if_neg h]
  by_cases hA : pyLower pseudo ∉ PARTICIPANTS_AUTORISES
  · rw [if_pos hA]
    simp [hA]
  · rw [if_neg hA]
    simp only [hA, iff_false]
    split_ifs <;> simp

/-- C3 witness: the amended equivalence applied to "alice" on `mC3`. -/
theorem ajouter_participant_unauthorized_iff_witness :
    ("alice" ≠ "") ∧
      (ajouter_participant mC3 "alice" "s1" = .error (.nonAutorise "alice") ↔
        pyLower "alice" ∉ PARTICIPANTS_AUTORISES) :=
  ⟨by decide, ajouter_participant_unauthorized_iff mC3 "alice" "s1" (by decide)⟩

/-! ### Claim C4: bounds validation on adding a feature -/

/-- C4, counterexample: with the bounds of `cDemo` (1..10),
`AppManager.ajout_fonctionnalite` called with priority 999 and difficulty 42
cannot fail — its result type carries no error — and it changes the stored
backlog, appending the out-of-bounds record. The bounds check lives only in
the `app.py` route. -/
theorem ajout_fonctionnalite_no_validation_cex :
    cDemo.PRIORITE_MAX < 999 ∧ cDemo.DIFFICULTE_MAX < 42 ∧
      (ajout_fonctionnalite (init []) "n" "d" 999 (some 42) "A faire"
          "unanimite" []).backlog =
        [{ id := 1, nom := "n", description := "d", priorite := 999,
           difficulte := some 42, statut := "A faire",
           mode_de_vote := "unanimite", participants := [] }] :=
  ⟨by decide, by decide, rfl⟩

/-- C4 (amended): the bounds check happens in the `/ajouter_fonctionnalite`
route handler: when the submitted priority or difficulty fails the
digit-and-bounds validation, the handler reports the field errors and
returns without calling the store, so the manager — in particular the
backlog — is unchanged. -/
theorem route_ajouter_fonctionnalite_invalid_unchanged (c : Constantes)
    (m : AppManager) (nom description priorite difficulte mode statut : String)
    (participants : List String)
    (h : prioriteValide c priorite = false ∨
         difficulteValide c difficulte = false) :
    (route_ajouter_fonctionnalite c m nom description priorite difficulte
        mode statut participants).1 = m ∧
      (route_ajouter_fonctionnalite c m nom description priorite difficulte
        mode statut participants).2 ≠ [] := by
  unfold route_ajouter_fonctionnalite
  rcases h with h | h
  · by_cases h2 : difficulteValide c difficulte <;> simp [h, h2]
  · by_cases h2 : prioriteValide c priorite <;> simp [h, h2]

/-- C4 witness: priority "999" is rejected under the `cDemo` bounds and the
backlog stays empty. -/
theorem route_ajouter_fonctionnalite_invalid_unchanged_witness :
    (prioriteValide cDemo "999" = false ∨
        difficulteValide cDemo "5" = false) ∧
      (route_ajouter_fonctionnalite cDemo (init []) "n" "d" "999" "5"
          "unanimite" "A faire" []).1 = init [] ∧
        (route_ajouter_fonctionnalite cDemo (init []) "n" "d" "999" "5"
          "unanimite" "A faire" []).2 ≠ [] :=
  ⟨Or.inl (by decide),
   route_ajouter_fonctionnalite_invalid_unchanged cDemo (init []) "n" "d"
     "999" "5" "unanimite" "A faire" [] (Or.inl (by decide))⟩

/-! ### Claim C9: duplicate pseudos and letter case -/

/-- C9, counterexample: joining "hugo" and then "Hugo" — a pseudo differing
only in letter case — does not fail with a duplicate error: both end up
connected, because the duplicate check compares stored pseudos by exact
string equality. -/
theorem ajouter_participant_case_variant_accepted_cex :
    ((ajouter_participant (init []) "hugo" "s1").bind
      (fun m1 => ajouter_participant m1 "Hugo" "s2")).map
        (fun m2 => m2.state.participants.map Participant.pseudo) =
      .ok ["hugo", "Hugo"] := rfl

/-- C9 (amended): the duplicate check is case-sensitive. After a successful
join, a second join with the exactly identical pseudo fails with the
duplicate error (and, failure raising before any mutation, the roster is the
one the first join left). -/
theorem ajouter_participant_exact_duplicate (m m2 : AppManager)
    (pseudo sid sid2 : String)
    (h : ajouter_participant m pseudo sid = .ok m2) :
    ajouter_participant m2 pseudo sid2 = .error (.doublonPseudo pseudo) := by
  unfold ajouter_participant at h ⊢
  by_cases h0 : pseudo = ""
  · rw [if_pos h0] at h; cases h
  rw [if_neg h0] at h ⊢
  by_cases hA : pyLower pseudo ∉ PARTICIPANTS_AUTORISES
  · rw [if_pos hA] at h; cases h
  rw [if_neg hA] at h ⊢
  have hmem : pseudo ∈ m2.state.participants.map Participant.pseudo := by
    by_cases hdup : pseudo ∈ m.state.participants.map Participant.pseudo
    · rw [if_pos hdup] at h; cases h
    rw [if_neg hdup] at h
    split_ifs at h with h1 h2 h3 h4 <;>
      (injection h with h
       subst h
       unfold ajouterDansState
       simp)
  rw [if_pos hmem]

/-- The roster after "hugo" joins the empty room. -/
def mC9 : AppManager := ajouterDansState (init []) "hugo" "Votant" "s1"

/-- C9 witness: re-joining with exactly "hugo" is rejected as a duplicate. -/
theorem ajouter_participant_exact_duplicate_witness :
    ajouter_participant mC9 "hugo" "s2" = .error (.doublonPseudo "hugo") :=
  ajouter_participant_exact_duplicate (init []) mC9 "hugo" "s1" "s2" (by rfl)

/-! ### Claim C10: `tout_le_monde_a_vote` with no Votant connected -/

/-- C10: when no connected participant holds the role Votant, every vote
being cast is vacuously true and `tout_le_monde_a_vote` returns true. -/
theorem tout_le_monde_a_vote_no_votant (m : AppManager)
    (h : ∀ p ∈ m.state.participants, p.fonction ≠ "Votant") :
    tout_le_monde_a_vote m = true := by
  unfold tout_le_monde_a_vote
  rw [List.all_eq_true]
  intro p hp
  rw [List.mem_filter] at hp
  exact absurd (by simpa using hp.2) (h p hp.1)

/-- The roster holding only the Product Owner and the Scrum Master, neither
having voted. -/
def mC10 : AppManager :=
  { backlog := [],
    state := { participants :=
                 [{ pseudo := "po", fonction := "Product Owner",
                    avatar := avatarOf "po", vote := none, session_id := "s1" },
                  { pseudo := "sm", fonction := "Scrum Master",
                    avatar := avatarOf "sm", vote := none, session_id := "s2" }],
               mapper_session := [("po", "s1"), ("sm", "s2")] } }

/-- C10 witness: with only the Product Owner and the Scrum Master connected
and no vote cast, `tout_le_monde_a_vote` is already true. -/
theorem tout_le_monde_a_vote_no_votant_witness :
    (∀ p ∈ mC10.state.participants, p.fonction ≠ "Votant") ∧
      tout_le_monde_a_vote mC10 = true :=
  ⟨by decide, tout_le_monde_a_vote_no_votant mC10 (by decide)⟩

/-! ### Claim C7: at most one Product Owner, at most one Scrum Master -/

/-- The roster invariant claimed for every join/logout sequence. -/
def rolesUniques (m : AppManager) : Prop :=
  compteRole m "Product Owner" ≤ 1 ∧ compteRole m "Scrum Master" ≤ 1

theorem compteRole_ajouterDansState (m : AppManager)
    (pseudo fonction sid role : String) :
    compteRole (ajouterDansState m pseudo fonction sid) role =
      compteRole m role + (if fonction == role then 1 else 0) := by
  unfold compteRole ajouterDansState
  simp [List.countP_append, List.countP_cons]

theorem compteRole_eq_zero (m : AppManager) (role : String)
    (h : (m.state.participants.any fun p => p.fonction == role) = false) :
    compteRole m role = 0 := by
  unfold compteRole
  rw [List.countP_eq_zero]
  intro p hp
  rw [List.any_eq_false] at h
  exact h p hp

theorem rolesUniques_appliquerOp (m : AppManager) (op : Op)
    (hm : rolesUniques m) : rolesUniques (appliquerOp m op) := by
  cases op with
  | logout sid =>
    unfold appliquerOp logout_participant
    exact ⟨le_trans (List.Sublist.countP_le _ (List.filter_sublist _)) hm.1,
           le_trans (List.Sublist.countP_le _ (List.filter_sublist _)) hm.2⟩
  | join pseudo sid =>
    cases hout : ajouter_participant m pseudo sid with
    | error e =>
      have hred : appliquerOp m (.join pseudo sid) = m := by
        simp only [appliquerOp, hout]
      rw [hred]
      exact hm
    | ok m2 =>
      have hred : appliquerOp m (.join pseudo sid) = m2 := by
        simp only [appliquerOp, hout]
      rw [hred]
      unfold ajouter_participant at hout
      split_ifs at hout with h0 hA hdup h1 h2 h3 h4
      · -- a Product Owner joins: none was connected
        injection hout with hout
        subst hout
        simp only [Bool.not_eq_true] at h2
        constructor
        · rw [compteRole_ajouterDansState, compteRole_eq_zero m _ h2]
          decide
        · rw [compteRole_ajouterDansState, if_neg (by decide)]
          simpa using hm.2
      · -- a Scrum Master joins: none was connected
        injection hout with hout
        subst hout
        simp only [Bool.not_eq_true] at h4
        constructor
        · rw [compteRole_ajouterDansState, if_neg (by decide)]
          simpa using hm.1
        · rw [compteRole_ajouterDansState, compteRole_eq_zero m _ h4]
          decide
      · -- a Votant joins: neither count moves
        injection hout with hout
        subst hout
        constructor
        · rw [compteRole_ajouterDansState, if_neg (by decide)]
          simpa using hm.1
        · rw [compteRole_ajouterDansState, if_neg (by decide)]
          simpa using hm.2

/-- C7: along every sequence of join/logout events from the empty roster, at
most one connected participant is the Product Owner and at most one is the
Scrum Master. -/
theorem at_most_one_po_one_sm (backlog : List Fonctionnalite) (ops : List Op) :
    compteRole (executer (init backlog) ops) "Product Owner" ≤ 1 ∧
      compteRole (executer (init backlog) ops) "Scrum Master" ≤ 1 := by
  have main : ∀ (l : List Op) (m : AppManager),
      rolesUniques m → rolesUniques (executer m l) := by
    intro l
    induction l with
    | nil => intro m hm; exact hm
    | cons op rest ih =>
      intro m hm
      exact ih _ (rolesUniques_appliquerOp m op hm)
  exact main ops (init backlog)
    ⟨by simp [compteRole, init], by simp [compteRole, init]⟩

/-! ### Claim C6: the backlog stays sorted, stably, under add/update/remove -/

theorem filter_priorite_orderedInsert (a : Fonctionnalite)
    (l : List Fonctionnalite) (k : Int) :
    (List.orderedInsert prioriteLe a l).filter (fun f => decide (f.priorite = k)) =
      ((a :: l).filter (fun f => decide (f.priorite = k))) := by
  induction l with
  | nil => rfl
  | cons b t ih =>
    rw [List.orderedInsert]
    by_cases hab : prioriteLe a b
    · rw [if_pos hab]
    · rw [if_neg hab]
      have hba : b.priorite < a.priorite := lt_of_not_le hab
      by_cases hak : a.priorite = k
      · have hbk : ¬ b.priorite = k := by omega
        simp [List.filter_cons, hak, hbk, ih]
      · by_cases hbk : b.priorite = k
        · simp [List.filter_cons, hak, hbk, ih]
        · simp [List.filter_cons, hak, hbk, ih]

/-- Stability of the backlog sort: for every priority value, the features
holding it appear in the sorted list exactly in their pre-sort order. -/
theorem filter_priorite_trier_backlog (l : List Fonctionnalite) (k : Int) :
    (trier_backlog l).filter (fun f => decide (f.priorite = k)) =
      l.filter (fun f => decide (f.priorite = k)) := by
  unfold trier_backlog
  induction l with
  | nil => rfl
  | cons a t ih =>
    rw [List.insertionSort, filter_priorite_orderedInsert]
    simp only [List.filter_cons, ih]

/-- Sortedness of the backlog sort. -/
theorem trier_backlog_sorted (l : List Fonctionnalite) :
    List.Sorted prioriteLe (trier_backlog l) :=
  List.sorted_insertionSort prioriteLe l

/-- C6: starting from a backlog sorted by ascending priority, each of the
three mutations leaves the stored sequence sorted by ascending priority,
and ties in priority keep the relative order they had in the pre-sort
sequence (the old backlog with the new record appended for add, the
in-place-updated backlog for update, the surviving records for remove). -/
theorem backlog_ops_sorted_stable (m : AppManager)
    (hm : List.Sorted prioriteLe m.backlog)
    (nom description : String) (priorite : Int) (difficulte : Option Int)
    (statut mode_de_vote : String) (participants : List String)
    (fid : Int) (u : MiseAJour) :
    (List.Sorted prioriteLe
        (ajout_fonctionnalite m nom description priorite difficulte statut
          mode_de_vote participants).backlog ∧
      ∀ k : Int,
        (ajout_fonctionnalite m nom description priorite difficulte statut
            mode_de_vote participants).backlog.filter
            (fun f => decide (f.priorite = k)) =
          (m.backlog ++ [nouvelleFonctionnalite m nom description priorite
              difficulte statut mode_de_vote participants]).filter
            (fun f => decide (f.priorite = k))) ∧
    (∀ m2, modifier_fonctionnalite m fid u = .ok m2 →
      List.Sorted prioriteLe m2.backlog ∧
        ∀ k : Int, m2.backlog.filter (fun f => decide (f.priorite = k)) =
          (appliquerPremiere u fid m.backlog).filter
            (fun f => decide (f.priorite = k))) ∧
    (List.Sorted prioriteLe (supprimer_fonctionnalite m fid).backlog ∧
      ∀ k : Int,
        (supprimer_fonctionnalite m fid).backlog.filter
            (fun f => decide (f.priorite = k)) =
          (m.backlog.filter (fun f => f.id != fid)).filter
            (fun f => decide (f.priorite = k))) := by
  refine ⟨⟨trier_backlog_sorted _, fun k => filter_priorite_trier_backlog _ k⟩,
    ?_, ⟨?_, fun _ => rfl⟩⟩
  · intro m2 h2
    unfold modifier_fonctionnalite at h2
    split_ifs at h2
    injection h2 with h2
    subst h2
    exact ⟨trier_backlog_sorted _, fun k => filter_priorite_trier_backlog _ k⟩
  · exact hm.filter _

/-- A sorted two-feature backlog used to instantiate C6. -/
def mC6 : AppManager :=
  init [{ id := 1, nom := "a", description := "da", priorite := 1 },
        { id := 2, nom := "b", description := "db", priorite := 2 }]

/-- C6 witness: the three mutations applied to the concrete sorted backlog. -/
theorem backlog_ops_sorted_stable_witness :
    List.Sorted prioriteLe mC6.backlog ∧
      ((List.Sorted prioriteLe
          (ajout_fonctionnalite mC6 "c" "dc" 1 (some 3) "A faire" "unanimite"
            []).backlog ∧
        ∀ k : Int,
          (ajout_fonctionnalite mC6 "c" "dc" 1 (some 3) "A faire" "unanimite"
              []).backlog.filter (fun f => decide (f.priorite = k)) =
            (mC6.backlog ++ [nouvelleFonctionnalite mC6 "c" "dc" 1 (some 3)
                "A faire" "unanimite" []]).filter
              (fun f => decide (f.priorite = k))) ∧
      (∀ m2, modifier_fonctionnalite mC6 2 { priorite := some 0 } = .ok m2 →
        List.Sorted prioriteLe m2.backlog ∧
          ∀ k : Int, m2.backlog.filter (fun f => decide (f.priorite = k)) =
            (appliquerPremiere { priorite := some 0 } 2 mC6.backlog).filter
              (fun f => decide (f.priorite = k))) ∧
      (List.Sorted prioriteLe (supprimer_fonctionnalite mC6 2).backlog ∧
        ∀ k : Int,
          (supprimer_fonctionnalite mC6 2).backlog.filter
              (fun f => decide (f.priorite = k)) =
            (mC6.backlog.filter (fun f => f.id != 2)).filter
              (fun f => decide (f.priorite = k)))) :=
  ⟨by decide,
   backlog_ops_sorted_stable mC6 (by decide) "c" "dc" 1 (some 3) "A faire"
     "unanimite" [] 2 { priorite := some 0 }⟩

/-! ### Claim C8: `valider_vote` in `unanimite` mode -/

/-- The pseudo-to-vote pairs of the connected Votants holding a vote, in
roster order (the claim's reading of the `votes` comprehension). -/
def votesDesVotants (ps : List Participant) : List (String × String) :=
  ps.filterMap (fun p =>
    if p.fonction == "Votant" then p.vote.map (fun v => (p.pseudo, v))
    else none)

theorem votesVotants_aux (ps : List Participant) :
    ∀ d : List (String × String),
      (∀ p ∈ ps, ∀ kv ∈ d, kv.1 ≠ p.pseudo) →
      (ps.map Participant.pseudo).Nodup →
      ps.foldl votesStep d = d ++ votesDesVotants ps := by
  induction ps with
  | nil =>
    intro d _ _
    simp [votesDesVotants]
  | cons p t ih =>
    intro d hd hn
    simp only [List.map_cons, List.nodup_cons] at hn
    rw [List.foldl_cons]
    by_cases hf : p.fonction = "Votant"
    · cases hv : p.vote with
      | none =>
        have hs : votesStep d p = d := by
          simp [votesStep, hf, hv]
        rw [hs, ih d (fun q hq kv hkv => hd q (List.mem_cons_of_mem p hq) kv hkv) hn.2]
        simp [votesDesVotants, List.filterMap_cons, hf, hv]
      | some v =>
        have hnotin : (d.any (fun kv => kv.1 == p.pseudo)) = false := by
          rw [List.any_eq_false]
          intro kv hkv
          simp only [beq_iff_eq]
          exact hd p (List.mem_cons_self p t) kv hkv
        have hs : votesStep d p = d ++ [(p.pseudo, v)] := by
          simp [votesStep, dictInsert, hf, hv, hnotin]
        rw [hs, ih (d ++ [(p.pseudo, v)]) ?_ hn.2]
        · rw [List.append_assoc]
          congr 1
          simp [votesDesVotants, List.filterMap_cons, hf, hv]
        · intro q hq kv hkv
          rcases List.mem_append.mp hkv with hkv | hkv
          · exact hd q (List.mem_cons_of_mem p hq) kv hkv
          · rw [List.mem_singleton] at hkv
            subst hkv
            intro he
            exact hn.1 (List.mem_map.mpr ⟨q, hq, he.symm⟩)
    · have hs : votesStep d p = d := by
        simp [votesStep, hf]
      rw [hs, ih d (fun q hq kv hkv => hd q (List.mem_cons_of_mem p hq) kv hkv) hn.2]
      simp [votesDesVotants, List.filterMap_cons, hf]

/-- While connected pseudos are distinct — as every reachable roster has
them — the Python dict built by `valider_vote` lists exactly the
Votant-vote pairs, in roster order. -/
theorem votesVotants_eq (ps : List Participant)
    (hn : (ps.map Participant.pseudo).Nodup) :
    votesVotants ps = votesDesVotants ps := by
  unfold votesVotants
  rw [votesVotants_aux ps [] (by simp) hn]
  simp

/-- C8: on a round whose active feature (a non-zero id, as the data model
assigns) is in the backlog with mode `unanimite`, with distinct connected
pseudos and at least one Votant vote, `valider_vote` returns the boolean it
stores into `fonctionnalite_approuvee`, and that boolean is true exactly
when the Votants' non-null votes have exactly one distinct value. -/
theorem valider_vote_unanimite (c : Constantes) (m : AppManager)
    (fid : Int) (f : Fonctionnalite)
    (hid : m.state.id_fonctionnalite = some fid)
    (hfid : fid ≠ 0)
    (hfind : m.backlog.find? (fun g => g.id == fid) = some f)
    (hmode : f.mode_de_vote = "unanimite")
    (hnodup : (m.state.participants.map Participant.pseudo).Nodup)
    (hvotes : votesDesVotants m.state.participants ≠ []) :
    ∃ m2, valider_vote c m =
        .ok (m2, m2.state.indicateurs.fonctionnalite_approuvee) ∧
      (m2.state.indicateurs.fonctionnalite_approuvee = true ↔
        ((votesDesVotants m.state.participants).map Prod.snd).dedup.length = 1) := by
  have hveq := votesVotants_eq m.state.participants hnodup
  have hne : (votesDesVotants m.state.participants).isEmpty = false := by
    cases hv : votesDesVotants m.state.participants with
    | nil => exact absurd hv hvotes
    | cons a t => rfl
  unfold valider_vote
  rw [hid]
  simp only [hveq, hne, hfind, hmode, if_neg hfid, Bool.false_eq_true,
    if_false]
  by_cases hlen :
      ((votesDesVotants m.state.participants).map Prod.snd).dedup.length = 1
  · rw [if_pos trivial, if_pos hlen]
    exact ⟨setApprouvee m true, rfl, by simp [setApprouvee, hlen]⟩
  · rw [if_pos trivial, if_neg hlen]
    exact ⟨setApprouvee m false, rfl, by simp [setApprouvee, hlen]⟩

/-- A unanimous round used to instantiate C8. -/
def mC8 : AppManager :=
  { backlog := [{ id := 1, nom := "f", description := "d", priorite := 1,
                  mode_de_vote := "unanimite", participants := ["a", "b"] }],
    state := { participants := [votant "a" (some "5") "s1",
                                votant "b" (some "5") "s2"],
               mapper_session := [("a", "s1"), ("b", "s2")],
               id_fonctionnalite := some 1,
               indicateurs := { vote_commence := true } } }

/-- C8 witness: the unanimity theorem applied to the concrete round where
both Votants voted "5". -/
theorem valider_vote_unanimite_witness :
    (mC8.state.id_fonctionnalite = some 1 ∧ (1 : Int) ≠ 0 ∧
      mC8.backlog.find? (fun g => g.id == 1) =
        some { id := 1, nom := "f", description := "d", priorite := 1,
               mode_de_vote := "unanimite", participants := ["a", "b"] } ∧
      (mC8.state.participants.map Participant.pseudo).Nodup ∧
      votesDesVotants mC8.state.participants ≠ []) ∧
    ∃ m2, valider_vote cDemo mC8 =
        .ok (m2, m2.state.indicateurs.fonctionnalite_approuvee) ∧
      (m2.state.indicateurs.fonctionnalite_approuvee = true ↔
        ((votesDesVotants mC8.state.participants).map Prod.snd).dedup.length = 1) :=
  ⟨⟨by decide, by decide, by decide, by decide, by decide⟩,
   valider_vote_unanimite cDemo mC8 1
     { id := 1, nom := "f", description := "d", priorite := 1,
       mode_de_vote := "unanimite", participants := ["a", "b"] }
     (by decide) (by decide) (by decide) (by decide) (by decide) (by decide)⟩

end PlanningPoker
